import Mathlib

/-!
Shallow embedding of the e-mail verification / password-reset system from
`routes/auth.py`, `utils/email.py` and `config/settings.py` (Flask
implementation in `implementacao_python.py`).

Modelling conventions:
  * Python dicts (`verification_codes`, `reset_codes`) are association lists
    keyed by e-mail; dict assignment replaces an existing binding in place,
    `del` removes it.
  * `time.time()` is passed in explicitly as `now : Nat` (seconds); fractional
    seconds are irrelevant to every comparison in the source.
  * `random.randint(100000, 999999)` is modelled by an arbitrary draw
    `r : Nat` mapped into the inclusive range.
  * Request fields obtained with `data.get(...)` are strings where `""`
    stands for both the missing field and the empty string (Python's `not x`
    is true exactly for those two on this data).
  * The SMTP side effect is an environment-supplied outcome
    `transport : Except String Unit`; a raised exception is `.error`.
-/

namespace EmailSystem

/-- A stored pending-code record, `{'code': ..., 'expires_at': ...}` in `auth.py`. -/
structure CodeEntry where
  code : String
  expires_at : Nat
  deriving Repr, DecidableEq

/-- An in-memory code dict (`verification_codes` or `reset_codes`):
an association list from e-mail to pending-code record. -/
abbrev Store := List (String × CodeEntry)

/-- Python `d[k]` lookup / `k in d`: first binding for the key, if any. -/
def storeLookup : Store → String → Option CodeEntry
  | [], _ => none
  | (k, e) :: rest, key => if k = key then some e else storeLookup rest key

/-- Python dict assignment `d[k] = v`: replace the existing binding in place,
or append a new one. -/
def storeInsert : Store → String → CodeEntry → Store
  | [], key, v => [(key, v)]
  | (k, e) :: rest, key, v =>
      if k = key then (key, v) :: rest else (k, e) :: storeInsert rest key v

/-- Python `del d[k]`: remove the binding for the key. -/
def storeErase : Store → String → Store
  | [], _ => []
  | (k, e) :: rest, key => if k = key then rest else (k, e) :: storeErase rest key

/-- The keys of a store, in order. -/
def storeKeys (s : Store) : List String := s.map Prod.fst

/-- The two module-level dicts of `routes/auth.py`:
`verification_codes = {}` and `reset_codes = {}`. -/
structure AuthState where
  verification_codes : Store
  reset_codes : Store
  deriving Repr, DecidableEq

/-- Python `random.randint(lo, hi)`: the draw `r` selects a value of the
inclusive range `[lo, hi]`. -/
def randint (lo hi r : Nat) : Nat := lo + r % (hi - lo + 1)

/-- `generate_code()` from `routes/auth.py`: `str(random.randint(100000, 999999))`. -/
def generate_code (r : Nat) : String := Nat.repr (randint 100000 999999 r)

/-- Outcome of a verification handler (`/verify-code`, `/reset-password`),
named after the error taxonomy of the spec; each maps to a JSON message and
an HTTP status below. -/
inductive VerifyResult where
  | missingField
  | notFound
  | expired
  | mismatch
  | success
  deriving Repr, DecidableEq

/-- HTTP status code returned for each verification outcome. -/
def verifyStatus : VerifyResult → Nat
  | .success => 200
  | _ => 400

/-- Outcome of an issuing handler (`/register`, `/forgot-password`). -/
inductive IssueResult where
  | missingField
  | success
  | deliveryFailure (err : String)
  deriving Repr, DecidableEq

/-- HTTP status code returned for each issuing outcome. -/
def issueStatus : IssueResult → Nat
  | .success => 200
  | .missingField => 400
  | .deliveryFailure _ => 500

/-- The `EmailService` of `utils/email.py`, configured from `settings.py`. -/
structure EmailService where
  smtp_host : String
  smtp_port : Nat
  smtp_from : String
  log_only : Bool
  deriving Repr, DecidableEq

/-- The MIME message assembled in `_send_email` (multipart/alternative with a
plain part and an optional html part). -/
structure MimeMessage where
  from_addr : String
  to_addr : String
  subject : String
  parts : List (String × String)
  deriving Repr, DecidableEq

/-- What `_send_email` did: `result` is the returned value or the raised
exception, `smtp_used` records whether any SMTP connection was attempted. -/
structure SendOutcome where
  result : Except String Bool
  smtp_used : Bool
  deriving Repr

/-- `EmailService._send_email`: assemble the MIME message; in log-only mode
log and return `True` without touching SMTP; otherwise connect and send, with
the environment-supplied `transport` outcome, re-raising any exception. -/
def EmailService.send_email (svc : EmailService) (dest subject text : String)
    (html : Option String) (transport : Except String Unit) : SendOutcome :=
  let _msg : MimeMessage :=
    { from_addr := svc.smtp_from, to_addr := dest, subject := subject,
      parts := (text, "plain") :: (match html with
        | some h => [(h, "html")]
        | none => []) }
  if svc.log_only then
    { result := .ok true, smtp_used := false }
  else
    match transport with
    | .ok _ => { result := .ok true, smtp_used := true }
    | .error e => { result := .error e, smtp_used := true }

/-- Plain-text body of the verification e-mail (source f-string with the code
spliced in; surrounding indentation whitespace not reproduced). -/
def verification_text (code : String) : String :=
  "Olá!\n\nSeu código de verificação é: " ++ code ++
  "\n\nEste código expira em 15 minutos.\n\nSe não foi você, ignore este e-mail."

/-- HTML body of the verification e-mail (source f-string with the code
spliced in; inline CSS attributes not reproduced). -/
def verification_html (code : String) : String :=
  "<!DOCTYPE html>\n<html>\n<head>\n<meta charset=\"utf-8\">\n</head>\n<body>\n" ++
  "<h2>Verificação de Conta</h2>\n<p>Seu código de verificação é:</p>\n<h1>" ++
  code ++
  "</h1>\n<p>Este código expira em 15 minutos.</p>\n" ++
  "<p>Se não foi você, ignore este e-mail.</p>\n</body>\n</html>"

/-- Plain-text body of the password-reset e-mail. -/
def reset_text (code : String) : String :=
  "Olá!\n\nVocê solicitou a recuperação de senha da sua conta.\n\n" ++
  "Seu código de recuperação é: " ++ code ++
  "\n\nEste código expira em 15 minutos.\n\nSe você não solicitou, ignore este e-mail."

/-- HTML body of the password-reset e-mail (inline CSS attributes not
reproduced). -/
def reset_html (code : String) : String :=
  "<!DOCTYPE html>\n<html>\n<head>\n<meta charset=\"utf-8\">\n</head>\n<body>\n" ++
  "<h2>Recuperação de Senha</h2>\n<p>Você solicitou a recuperação de senha.</p>\n" ++
  "<p>Seu código de recuperação é:</p>\n<h1>" ++ code ++
  "</h1>\n<p>Este código expira em 15 minutos.</p>\n" ++
  "<p>Se não foi você, ignore este e-mail. Sua senha permanece segura.</p>\n</body>\n</html>"

/-- `EmailService.send_verification_email`. -/
def EmailService.send_verification_email (svc : EmailService) (dest code : String)
    (transport : Except String Unit) : SendOutcome :=
  svc.send_email dest "Seu código de verificação" (verification_text code)
    (some (verification_html code)) transport

/-- `EmailService.send_password_reset_email`. -/
def EmailService.send_password_reset_email (svc : EmailService) (dest code : String)
    (transport : Except String Unit) : SendOutcome :=
  svc.send_email dest "Recuperação de Senha" (reset_text code)
    (some (reset_html code)) transport

/-- `EmailService.verify_connection`: `True` in log-only mode, otherwise
whether an SMTP connection attempt succeeds; never raises. -/
def EmailService.verify_connection (svc : EmailService)
    (transport : Except String Unit) : Bool :=
  if svc.log_only then true
  else
    match transport with
    | .ok _ => true
    | .error _ => false

/-- Default configuration from `config/settings.py` when no environment
variables are set (`EMAIL_LOG_ONLY` defaults to `'0'`, i.e. `False`). -/
def defaultService : EmailService :=
  { smtp_host := "127.0.0.1", smtp_port := 25,
    smtp_from := "no-reply@seusite.com", log_only := false }

/-- The same service with `EMAIL_LOG_ONLY=1` set. -/
def logOnlyService : EmailService :=
  { defaultService with log_only := true }

/-- The `/register` handler: require `email`, generate a code, store it with
`expires_at = now + 900`, then attempt the verification e-mail; a delivery
exception yields a 500 but the store write has already happened. -/
def register (svc : EmailService) (st : AuthState) (email : String) (r : Nat)
    (now : Nat) (transport : Except String Unit) : IssueResult × AuthState :=
  if email = "" then (.missingField, st)
  else
    let code := generate_code r
    let st' : AuthState :=
      { st with
        verification_codes := storeInsert st.verification_codes email ⟨code, now + 900⟩ }
    match (svc.send_verification_email email code transport).result with
    | .ok _ => (.success, st')
    | .error e => (.deliveryFailure e, st')

/-- The `/verify-code` handler: require both fields, then look up the
registration store; expired entries are deleted and reported, a wrong code
leaves the entry intact, a match deletes the entry and succeeds. -/
def verify_code (st : AuthState) (email code : String) (now : Nat) :
    VerifyResult × AuthState :=
  if email = "" ∨ code = "" then (.missingField, st)
  else
    match storeLookup st.verification_codes email with
    | none => (.notFound, st)
    | some stored =>
      if now > stored.expires_at then
        (.expired,
          { st with verification_codes := storeErase st.verification_codes email })
      else if stored.code ≠ code then
        (.mismatch, st)
      else
        (.success,
          { st with verification_codes := storeErase st.verification_codes email })

/-- The `/forgot-password` handler: like `register` but writing the reset
store and sending the password-reset e-mail. -/
def forgot_password (svc : EmailService) (st : AuthState) (email : String)
    (r : Nat) (now : Nat) (transport : Except String Unit) :
    IssueResult × AuthState :=
  if email = "" then (.missingField, st)
  else
    let code := generate_code r
    let st' : AuthState :=
      { st with
        reset_codes := storeInsert st.reset_codes email ⟨code, now + 900⟩ }
    match (svc.send_password_reset_email email code transport).result with
    | .ok _ => (.success, st')
    | .error e => (.deliveryFailure e, st')

/-- The `/reset-password` handler: require all three fields, then run the same
lookup / expiry / equality / delete sequence against the reset store (the
actual password update is out of scope in the source, a comment). -/
def reset_password (st : AuthState) (email code new_password : String)
    (now : Nat) : VerifyResult × AuthState :=
  if email = "" ∨ code = "" ∨ new_password = "" then (.missingField, st)
  else
    match storeLookup st.reset_codes email with
    | none => (.notFound, st)
    | some stored =>
      if now > stored.expires_at then
        (.expired, { st with reset_codes := storeErase st.reset_codes email })
      else if stored.code ≠ code then
        (.mismatch, st)
      else
        (.success, { st with reset_codes := storeErase st.reset_codes email })

end EmailSystem

namespace EmailSystem

/-! ### Association-list (dict) lemmas -/

theorem storeLookup_eq_none_of_not_mem (s : Store) (k : String)
    (h : k ∉ storeKeys s) : storeLookup s k = none := by
  induction s with
  | nil => rfl
  | cons p rest ih =>
    obtain ⟨k', v⟩ := p
    have h1 : ¬ k' = k := fun he => h (by simp [storeKeys, he])
    have h2 : k ∉ storeKeys rest := fun hm => h (by simp [storeKeys] at hm ⊢; exact Or.inr hm)
    simp [storeLookup, h1, ih h2]

theorem storeLookup_storeInsert_self (s : Store) (k : String) (v : CodeEntry) :
    storeLookup (storeInsert s k v) k = some v := by
  induction s with
  | nil => simp [storeInsert, storeLookup]
  | cons p rest ih =>
    obtain ⟨k', v'⟩ := p
    by_cases h : k' = k
    · simp [storeInsert, h, storeLookup]
    · simp [storeInsert, h, storeLookup, ih]

theorem storeLookup_storeErase_self (s : Store) (k : String)
    (h : (storeKeys s).Nodup) : storeLookup (storeErase s k) k = none := by
  induction s with
  | nil => rfl
  | cons p rest ih =>
    obtain ⟨k', v'⟩ := p
    simp only [storeKeys, List.map_cons, List.nodup_cons] at h
    by_cases hk : k' = k
    · subst hk
      simpa [storeErase] using storeLookup_eq_none_of_not_mem rest k' (by simpa [storeKeys] using h.1)
    · simp [storeErase, hk, storeLookup, ih (by simpa [storeKeys] using h.2)]

theorem mem_storeKeys_storeInsert (s : Store) (k a : String) (v : CodeEntry)
    (h : a ∈ storeKeys (storeInsert s k v)) : a ∈ storeKeys s ∨ a = k := by
  induction s with
  | nil => simpa [storeInsert, storeKeys] using h
  | cons p rest ih =>
    obtain ⟨k', v'⟩ := p
    by_cases hk : k' = k
    · subst hk
      simp [storeInsert, storeKeys] at h ⊢
      tauto
    · simp [storeInsert, hk, storeKeys] at h ⊢
      rcases h with h | h
      · exact Or.inl (Or.inl h)
      · rcases ih (by simpa [storeKeys] using h) with h' | h'
        · exact Or.inl (Or.inr (by simpa [storeKeys] using h'))
        · exact Or.inr h'

theorem storeKeys_storeInsert_nodup (s : Store) (k : String) (v : CodeEntry)
    (h : (storeKeys s).Nodup) : (storeKeys (storeInsert s k v)).Nodup := by
  induction s with
  | nil => simp [storeInsert, storeKeys]
  | cons p rest ih =>
    obtain ⟨k', v'⟩ := p
    simp only [storeKeys, List.map_cons, List.nodup_cons] at h
    by_cases hk : k' = k
    · subst hk
      have he : storeInsert ((k', v') :: rest) k' v = (k', v) :: rest := by
        simp [storeInsert]
      rw [he]
      simpa [storeKeys, List.nodup_cons] using h
    · simp only [storeInsert, if_neg hk, storeKeys, List.map_cons, List.nodup_cons]
      constructor
      · intro hmem
        rcases mem_storeKeys_storeInsert rest k k' v (by simpa [storeKeys] using hmem) with h1 | h1
        · exact h.1 (by simpa [storeKeys] using h1)
        · exact hk h1
      · simpa [storeKeys] using ih (by simpa [storeKeys] using h.2)

theorem storeKeys_storeErase_sublist (s : Store) (k : String) :
    (storeKeys (storeErase s k)).Sublist (storeKeys s) := by
  induction s with
  | nil => simp [storeErase, storeKeys]
  | cons p rest ih =>
    obtain ⟨k', v'⟩ := p
    by_cases hk : k' = k
    · subst hk
      have he : storeErase ((k', v') :: rest) k' = rest := by simp [storeErase]
      rw [he]
      exact List.sublist_cons_self _ _
    · have he : storeErase ((k', v') :: rest) k = (k', v') :: storeErase rest k := by
        simp [storeErase, hk]
      rw [he]
      simp only [storeKeys, List.map_cons]
      exact List.Sublist.cons₂ k' (by simpa [storeKeys] using ih)

theorem storeKeys_storeErase_nodup (s : Store) (k : String)
    (h : (storeKeys s).Nodup) : (storeKeys (storeErase s k)).Nodup :=
  List.Nodup.sublist (storeKeys_storeErase_sublist s k) h

end EmailSystem

namespace EmailSystem

/-! ### Decimal representation lemmas for `generate_code` -/

theorem toDigitsCore_length_ge (e : Nat) :
    ∀ f n, n < f → 10 ^ e ≤ n → e + 1 ≤ (Nat.toDigitsCore 10 f n []).length := by
  induction e with
  | zero =>
    intro f n hf hn
    match f, hf with
    | f + 1, _ =>
      simp only [Nat.toDigitsCore]
      split
      · simp
      · rw [Nat.toDigitsCore_lens_eq]
        omega
  | succ e ih =>
    intro f n hf hn
    match f, hf with
    | f + 1, _ =>
      have hten : (10 : Nat) ^ (e + 1) = 10 ^ e * 10 := pow_succ 10 e
      have hn10 : 10 ^ e ≤ n / 10 := (Nat.le_div_iff_mul_le (by norm_num)).2 (by omega)
      have hpos : 0 < n / 10 := lt_of_lt_of_le (Nat.pos_pow_of_pos e (by norm_num)) hn10
      have hn0 : 0 < n := lt_of_lt_of_le (Nat.pos_pow_of_pos (e + 1) (by norm_num)) hn
      have hlt : n / 10 < f := by
        have h1 : n / 10 < n := Nat.div_lt_self hn0 (by norm_num)
        omega
      simp only [Nat.toDigitsCore]
      split
      · omega
      · rw [Nat.toDigitsCore_lens_eq]
        have := ih f (n / 10) hlt hn10
        omega

theorem repr_length_ge (n e : Nat) (h : 10 ^ e ≤ n) :
    e + 1 ≤ (Nat.repr n).length := by
  simp only [Nat.repr, Nat.toDigits, String.length, List.asString]
  exact toDigitsCore_length_ge e (n + 1) n (Nat.lt_succ_self n) h

theorem repr_length_of_six_digits (n : Nat) (h1 : 100000 ≤ n) (h2 : n ≤ 999999) :
    (Nat.repr n).length = 6 := by
  have hup : (Nat.repr n).length ≤ 6 := by
    have h6 : (10 : Nat) ^ 6 = 1000000 := by norm_num
    exact Nat.repr_length n 6 (by norm_num) (by omega)
  have hlo : 6 ≤ (Nat.repr n).length := by
    have h5 : (10 : Nat) ^ 5 = 100000 := by norm_num
    exact repr_length_ge n 5 (by omega)
  omega

theorem toDigitsCore_all_digits (f : Nat) :
    ∀ n acc, (∀ c ∈ acc, c.isDigit = true) →
      ∀ c ∈ Nat.toDigitsCore 10 f n acc, c.isDigit = true := by
  induction f with
  | zero =>
    intro n acc hacc
    simpa [Nat.toDigitsCore] using hacc
  | succ f ih =>
    intro n acc hacc
    have hd : (Nat.digitChar (n % 10)).isDigit = true := by
      have hm : n % 10 < 10 := Nat.mod_lt _ (by norm_num)
      interval_cases h : n % 10 <;> decide
    simp only [Nat.toDigitsCore]
    split
    · intro c hc
      rcases List.mem_cons.1 hc with h | h
      · subst h; exact hd
      · exact hacc c h
    · refine ih (n / 10) _ ?_
      intro c hc
      rcases List.mem_cons.1 hc with h | h
      · subst h; exact hd
      · exact hacc c h

theorem randint_bounds (r : Nat) :
    100000 ≤ randint 100000 999999 r ∧ randint 100000 999999 r ≤ 999999 := by
  unfold randint
  omega

theorem generate_code_length (r : Nat) : (generate_code r).length = 6 :=
  repr_length_of_six_digits _ (randint_bounds r).1 (randint_bounds r).2

theorem generate_code_ne_empty (r : Nat) : generate_code r ≠ "" := by
  intro h
  have hl := generate_code_length r
  rw [h] at hl
  exact absurd hl (by decide)

theorem generate_code_all_digits (r : Nat) :
    ∀ c ∈ (generate_code r).data, c.isDigit = true := by
  have h := toDigitsCore_all_digits (randint 100000 999999 r + 1)
    (randint 100000 999999 r) [] (by simp)
  intro c hc
  exact h c (by simpa [generate_code, Nat.repr, Nat.toDigits, List.asString] using hc)

end EmailSystem

namespace EmailSystem

/-! ### Handler branch lemmas -/

theorem verify_code_notFound (st : AuthState) (email code : String) (now : Nat)
    (hemail : email ≠ "") (hcode : code ≠ "")
    (hlook : storeLookup st.verification_codes email = none) :
    verify_code st email code now = (.notFound, st) := by
  simp [verify_code, hemail, hcode, hlook]

theorem verify_code_expired (st : AuthState) (email code : String) (now : Nat)
    (hemail : email ≠ "") (hcode : code ≠ "") (stored : CodeEntry)
    (hlook : storeLookup st.verification_codes email = some stored)
    (hexp : now > stored.expires_at) :
    verify_code st email code now =
      (.expired, { st with verification_codes := storeErase st.verification_codes email }) := by
  simp [verify_code, hemail, hcode, hlook, hexp]

theorem verify_code_mismatch (st : AuthState) (email code : String) (now : Nat)
    (hemail : email ≠ "") (hcode : code ≠ "") (stored : CodeEntry)
    (hlook : storeLookup st.verification_codes email = some stored)
    (hexp : now ≤ stored.expires_at) (hne : stored.code ≠ code) :
    verify_code st email code now = (.mismatch, st) := by
  simp [verify_code, hemail, hcode, hlook, Nat.not_lt.2 hexp, hne]

theorem verify_code_success (st : AuthState) (email code : String) (now : Nat)
    (hemail : email ≠ "") (hcode : code ≠ "") (stored : CodeEntry)
    (hlook : storeLookup st.verification_codes email = some stored)
    (hexp : now ≤ stored.expires_at) (heq : stored.code = code) :
    verify_code st email code now =
      (.success, { st with verification_codes := storeErase st.verification_codes email }) := by
  simp [verify_code, hemail, hcode, hlook, Nat.not_lt.2 hexp, heq]

theorem reset_password_success (st : AuthState) (email code pw : String) (now : Nat)
    (hemail : email ≠ "") (hcode : code ≠ "") (hpw : pw ≠ "") (stored : CodeEntry)
    (hlook : storeLookup st.reset_codes email = some stored)
    (hexp : now ≤ stored.expires_at) (heq : stored.code = code) :
    reset_password st email code pw now =
      (.success, { st with reset_codes := storeErase st.reset_codes email }) := by
  simp [reset_password, hemail, hcode, hpw, hlook, Nat.not_lt.2 hexp, heq]

theorem register_state (svc : EmailService) (st : AuthState) (email : String)
    (r now : Nat) (t : Except String Unit) (hemail : email ≠ "") :
    (register svc st email r now t).2 =
      { st with verification_codes :=
          storeInsert st.verification_codes email ⟨generate_code r, now + 900⟩ } := by
  unfold register
  rw [if_neg hemail]
  cases h : (svc.send_verification_email email (generate_code r) t).result <;> simp [h]

theorem forgot_password_state (svc : EmailService) (st : AuthState) (email : String)
    (r now : Nat) (t : Except String Unit) (hemail : email ≠ "") :
    (forgot_password svc st email r now t).2 =
      { st with reset_codes :=
          storeInsert st.reset_codes email ⟨generate_code r, now + 900⟩ } := by
  unfold forgot_password
  rw [if_neg hemail]
  cases h : (svc.send_password_reset_email email (generate_code r) t).result <;> simp [h]

theorem register_reset_frame (svc : EmailService) (st : AuthState) (email : String)
    (r now : Nat) (t : Except String Unit) :
    (register svc st email r now t).2.reset_codes = st.reset_codes := by
  by_cases h : email = ""
  · simp [register, h]
  · rw [register_state svc st email r now t h]

theorem forgot_password_verification_frame (svc : EmailService) (st : AuthState)
    (email : String) (r now : Nat) (t : Except String Unit) :
    (forgot_password svc st email r now t).2.verification_codes = st.verification_codes := by
  by_cases h : email = ""
  · simp [forgot_password, h]
  · rw [forgot_password_state svc st email r now t h]

theorem verify_code_reset_frame (st : AuthState) (email code : String) (now : Nat) :
    (verify_code st email code now).2.reset_codes = st.reset_codes := by
  unfold verify_code
  split
  · rfl
  · split
    · rfl
    · split
      · rfl
      · split
        · rfl
        · rfl

theorem reset_password_verification_frame (st : AuthState)
    (email code pw : String) (now : Nat) :
    (reset_password st email code pw now).2.verification_codes = st.verification_codes := by
  unfold reset_password
  split
  · rfl
  · split
    · rfl
    · split
      · rfl
      · split
        · rfl
        · rfl

theorem verify_code_result_congr (st1 st2 : AuthState) (email code : String) (now : Nat)
    (h : st1.verification_codes = st2.verification_codes) :
    (verify_code st1 email code now).1 = (verify_code st2 email code now).1 := by
  unfold verify_code
  rw [h]
  split
  · rfl
  · split
    · rfl
    · split
      · rfl
      · split
        · rfl
        · rfl

theorem reset_password_result_congr (st1 st2 : AuthState) (email code pw : String)
    (now : Nat) (h : st1.reset_codes = st2.reset_codes) :
    (reset_password st1 email code pw now).1 = (reset_password st2 email code pw now).1 := by
  unfold reset_password
  rw [h]
  split
  · rfl
  · split
    · rfl
    · split
      · rfl
      · split
        · rfl
        · rfl

theorem register_delivery_failure (svc : EmailService) (st : AuthState)
    (email : String) (r now : Nat) (err : String)
    (hemail : email ≠ "") (hlog : svc.log_only = false) :
    register svc st email r now (.error err) =
      (.deliveryFailure err,
        { st with verification_codes :=
            storeInsert st.verification_codes email ⟨generate_code r, now + 900⟩ }) := by
  simp [register, hemail, EmailService.send_verification_email,
    EmailService.send_email, hlog]

end EmailSystem

namespace EmailSystem

/-! ### Claims -/

/-- Claim C1: for every identifier and candidate code (both present), the
`/verify-code` handler checks the registration store in exactly the order
not-found → expired → mismatch → success: no entry gives `notFound`;
otherwise a current time strictly past the stored expiry gives `expired`
(deleting the entry); otherwise a candidate differing from the stored code
gives `mismatch`; otherwise the entry is deleted and the result is
`success`. -/
theorem C1_verify_code_check_order (st : AuthState) (email code : String)
    (now : Nat) (hemail : email ≠ "") (hcode : code ≠ "") :
    (storeLookup st.verification_codes email = none →
        verify_code st email code now = (.notFound, st)) ∧
    ∀ stored, storeLookup st.verification_codes email = some stored →
      (now > stored.expires_at →
        verify_code st email code now =
          (.expired,
            { st with verification_codes := storeErase st.verification_codes email })) ∧
      (now ≤ stored.expires_at → stored.code ≠ code →
        verify_code st email code now = (.mismatch, st)) ∧
      (now ≤ stored.expires_at → stored.code = code →
        verify_code st email code now =
          (.success,
            { st with verification_codes := storeErase st.verification_codes email })) := by
  refine ⟨fun h => verify_code_notFound st email code now hemail hcode h,
    fun stored hlook => ⟨?_, ?_, ?_⟩⟩
  · exact fun hexp => verify_code_expired st email code now hemail hcode stored hlook hexp
  · exact fun hexp hne => verify_code_mismatch st email code now hemail hcode stored hlook hexp hne
  · exact fun hexp heq => verify_code_success st email code now hemail hcode stored hlook hexp heq

/-- Witness for C1: a concrete successful verification. -/
theorem C1_verify_code_check_order_witness :
    verify_code ⟨[("a@x.com", ⟨"123456", 900⟩)], []⟩ "a@x.com" "123456" 10 =
      (.success, ⟨storeErase [("a@x.com", ⟨"123456", 900⟩)] "a@x.com", []⟩) := by
  have h := C1_verify_code_check_order ⟨[("a@x.com", ⟨"123456", 900⟩)], []⟩
    "a@x.com" "123456" 10 (by decide) (by decide)
  exact (h.2 ⟨"123456", 900⟩ (by decide)).2.2 (by decide) rfl

/-- Claim C2: with an unexpired stored code, verifying with the correct code
succeeds and deletes the entry, so an immediately following verification with
the same identifier and code fails with `notFound` (single use). The store
keys are assumed duplicate-free, as for a Python dict. -/
theorem C2_single_use (st : AuthState) (email : String) (stored : CodeEntry)
    (now now2 : Nat) (hemail : email ≠ "") (hcode : stored.code ≠ "")
    (hnd : (storeKeys st.verification_codes).Nodup)
    (hlook : storeLookup st.verification_codes email = some stored)
    (hfresh : now ≤ stored.expires_at) :
    verify_code st email stored.code now =
      (.success,
        { st with verification_codes := storeErase st.verification_codes email }) ∧
    verify_code (verify_code st email stored.code now).2 email stored.code now2 =
      (.notFound, (verify_code st email stored.code now).2) := by
  have h1 := verify_code_success st email stored.code now hemail hcode stored hlook hfresh rfl
  refine ⟨h1, ?_⟩
  rw [h1]
  exact verify_code_notFound _ email stored.code now2 hemail hcode
    (storeLookup_storeErase_self st.verification_codes email hnd)

/-- Witness for C2: the follow-up verification with the already-consumed code
fails with `notFound`. -/
theorem C2_single_use_witness :
    verify_code (verify_code ⟨[("a@x.com", ⟨"123456", 900⟩)], []⟩
        "a@x.com" "123456" 10).2 "a@x.com" "123456" 20 =
      (.notFound,
        (verify_code ⟨[("a@x.com", ⟨"123456", 900⟩)], []⟩ "a@x.com" "123456" 10).2) :=
  (C2_single_use ⟨[("a@x.com", ⟨"123456", 900⟩)], []⟩ "a@x.com" ⟨"123456", 900⟩
    10 20 (by decide) (by decide) (by decide) (by decide) (by decide)).2

/-- Claim C3: a stored entry whose expiry lies strictly in the past makes
verification fail with `expired` and deletes the entry, whatever the
candidate code is. -/
theorem C3_expired_deletes (st : AuthState) (email code : String) (now : Nat)
    (hemail : email ≠ "") (hcode : code ≠ "") (stored : CodeEntry)
    (hlook : storeLookup st.verification_codes email = some stored)
    (hexp : now > stored.expires_at) :
    verify_code st email code now =
      (.expired,
        { st with verification_codes := storeErase st.verification_codes email }) :=
  verify_code_expired st email code now hemail hcode stored hlook hexp

/-- Witness for C3: verification at t = 901 of a code expiring at t = 900
fails with `expired` even though the candidate is wrong, and the entry is
deleted. -/
theorem C3_expired_deletes_witness :
    verify_code ⟨[("a@x.com", ⟨"123456", 900⟩)], []⟩ "a@x.com" "000000" 901 =
      (.expired, ⟨storeErase [("a@x.com", ⟨"123456", 900⟩)] "a@x.com", []⟩) :=
  C3_expired_deletes ⟨[("a@x.com", ⟨"123456", 900⟩)], []⟩ "a@x.com" "000000" 901
    (by decide) (by decide) ⟨"123456", 900⟩ (by decide) (by decide)

end EmailSystem

namespace EmailSystem

/-- Claim C4: issuing replaces any existing entry for the identifier: after two
successive `/register` calls the store binds the identifier to the second
code with its expiry; within the second window only the second code verifies
(any other candidate gives `mismatch`, in particular the first code whenever
the two draws differ) while the second code succeeds; and the store keeps at
most one binding per identifier (duplicate-free keys are preserved). -/
theorem C4_overwrite (svc : EmailService) (st st1 st2 : AuthState) (email : String)
    (r1 r2 now1 now2 vnow : Nat) (t1 t2 : Except String Unit)
    (hemail : email ≠ "")
    (hnd : (storeKeys st.verification_codes).Nodup)
    (hst1 : st1 = (register svc st email r1 now1 t1).2)
    (hst2 : st2 = (register svc st1 email r2 now2 t2).2)
    (hvnow : vnow ≤ now2 + 900) :
    storeLookup st2.verification_codes email = some ⟨generate_code r2, now2 + 900⟩ ∧
    (∀ cand, cand ≠ "" → cand ≠ generate_code r2 →
      verify_code st2 email cand vnow = (.mismatch, st2)) ∧
    (generate_code r1 ≠ generate_code r2 →
      verify_code st2 email (generate_code r1) vnow = (.mismatch, st2)) ∧
    verify_code st2 email (generate_code r2) vnow =
      (.success,
        { st2 with verification_codes := storeErase st2.verification_codes email }) ∧
    (storeKeys st1.verification_codes).Nodup ∧
    (storeKeys st2.verification_codes).Nodup := by
  have hv1 : st1.verification_codes =
      storeInsert st.verification_codes email ⟨generate_code r1, now1 + 900⟩ := by
    rw [hst1, register_state svc st email r1 now1 t1 hemail]
  have hnd1 : (storeKeys st1.verification_codes).Nodup := by
    rw [hv1]; exact storeKeys_storeInsert_nodup _ _ _ hnd
  have hv2 : st2.verification_codes =
      storeInsert st1.verification_codes email ⟨generate_code r2, now2 + 900⟩ := by
    rw [hst2, register_state svc st1 email r2 now2 t2 hemail]
  have hnd2 : (storeKeys st2.verification_codes).Nodup := by
    rw [hv2]; exact storeKeys_storeInsert_nodup _ _ _ hnd1
  have hlook : storeLookup st2.verification_codes email =
      some ⟨generate_code r2, now2 + 900⟩ := by
    rw [hv2]; exact storeLookup_storeInsert_self _ _ _
  refine ⟨hlook, ?_, ?_, ?_, hnd1, hnd2⟩
  · intro cand hc hne
    exact verify_code_mismatch st2 email cand vnow hemail hc
      ⟨generate_code r2, now2 + 900⟩ hlook hvnow (fun h => hne h.symm)
  · intro hcodes
    exact verify_code_mismatch st2 email (generate_code r1) vnow hemail
      (generate_code_ne_empty r1) ⟨generate_code r2, now2 + 900⟩ hlook hvnow
      (fun h => hcodes h.symm)
  · exact verify_code_success st2 email (generate_code r2) vnow hemail
      (generate_code_ne_empty r2) ⟨generate_code r2, now2 + 900⟩ hlook hvnow rfl

/-- Witness for C4: after issuing twice (draws 0 then 1), verifying with the
first code gives `mismatch`. -/
theorem C4_overwrite_witness :
    verify_code (register defaultService
        ((register defaultService ⟨[], []⟩ "a@x.com" 0 0 (Except.ok ())).2)
        "a@x.com" 1 20 (Except.ok ())).2
      "a@x.com" (generate_code 0) 25 =
      (.mismatch, (register defaultService
        ((register defaultService ⟨[], []⟩ "a@x.com" 0 0 (Except.ok ())).2)
        "a@x.com" 1 20 (Except.ok ())).2) :=
  (C4_overwrite defaultService ⟨[], []⟩ _ _ "a@x.com" 0 1 0 20 25
    (Except.ok ()) (Except.ok ()) (by decide) (by decide) rfl rfl
    (by omega)).2.2.1 (by decide)

/-- Claim C5: a wrong candidate on an unexpired entry yields `mismatch` and
leaves the whole state unchanged, so the correct code still verifies at any
later time within the validity window. -/
theorem C5_mismatch_preserves (st : AuthState) (email cand : String)
    (stored : CodeEntry) (now now2 : Nat)
    (hemail : email ≠ "") (hcand : cand ≠ "") (hcode : stored.code ≠ "")
    (hlook : storeLookup st.verification_codes email = some stored)
    (hexp : now ≤ stored.expires_at) (hne : stored.code ≠ cand)
    (hexp2 : now2 ≤ stored.expires_at) :
    verify_code st email cand now = (.mismatch, st) ∧
    verify_code st email stored.code now2 =
      (.success,
        { st with verification_codes := storeErase st.verification_codes email }) :=
  ⟨verify_code_mismatch st email cand now hemail hcand stored hlook hexp hne,
    verify_code_success st email stored.code now2 hemail hcode stored hlook hexp2 rfl⟩

/-- Witness for C5: a wrong candidate leaves the state untouched. -/
theorem C5_mismatch_preserves_witness :
    verify_code ⟨[("a@x.com", ⟨"123456", 900⟩)], []⟩ "a@x.com" "654321" 10 =
      (.mismatch, ⟨[("a@x.com", ⟨"123456", 900⟩)], []⟩) :=
  (C5_mismatch_preserves ⟨[("a@x.com", ⟨"123456", 900⟩)], []⟩ "a@x.com" "654321"
    ⟨"123456", 900⟩ 10 20 (by decide) (by decide) (by decide) (by decide)
    (by decide) (by decide) (by decide)).1

/-- Claim C6: the generated code is the decimal string of the drawn integer,
which lies in [100000, 999999]; it is a numeric string of exactly 6
characters; and `/register` stores exactly that string with expiry equal to
the issue time plus 900 seconds. -/
theorem C6_code_format (r : Nat) (svc : EmailService) (st : AuthState)
    (email : String) (now : Nat) (t : Except String Unit) (hemail : email ≠ "") :
    generate_code r = Nat.repr (randint 100000 999999 r) ∧
    100000 ≤ randint 100000 999999 r ∧ randint 100000 999999 r ≤ 999999 ∧
    (generate_code r).length = 6 ∧
    (∀ c ∈ (generate_code r).data, c.isDigit = true) ∧
    storeLookup (register svc st email r now t).2.verification_codes email =
      some ⟨generate_code r, now + 900⟩ := by
  refine ⟨rfl, (randint_bounds r).1, (randint_bounds r).2, generate_code_length r,
    generate_code_all_digits r, ?_⟩
  rw [register_state svc st email r now t hemail]
  exact storeLookup_storeInsert_self st.verification_codes email _

/-- Witness for C6: the entry stored by a concrete `/register` call. -/
theorem C6_code_format_witness :
    storeLookup (register defaultService ⟨[], []⟩ "a@x.com" 0 0
        (Except.ok ())).2.verification_codes "a@x.com" =
      some ⟨generate_code 0, 900⟩ :=
  (C6_code_format 0 defaultService ⟨[], []⟩ "a@x.com" 0 (Except.ok ())
    (by decide)).2.2.2.2.2

/-- Claim C7: when the log-only flag is set, `send_verification_email` (and
the underlying `_send_email`, for any subject, bodies and destination) never
raises, returns success, and performs no SMTP interaction. -/
theorem C7_log_only (svc : EmailService) (dest code subject text : String)
    (html : Option String) (t : Except String Unit)
    (hlog : svc.log_only = true) :
    (svc.send_verification_email dest code t).result = Except.ok true ∧
    (svc.send_verification_email dest code t).smtp_used = false ∧
    (svc.send_email dest subject text html t).result = Except.ok true ∧
    (svc.send_email dest subject text html t).smtp_used = false := by
  simp [EmailService.send_verification_email, EmailService.send_email, hlog]

/-- Witness for C7: in log-only mode delivery succeeds even when the
transport would raise. -/
theorem C7_log_only_witness :
    (logOnlyService.send_verification_email "a@x.com" "123456"
        (Except.error "connection refused")).result = Except.ok true :=
  (C7_log_only logOnlyService "a@x.com" "123456" "s" "t" none
    (Except.error "connection refused") rfl).1

end EmailSystem

namespace EmailSystem

/-- Claim C8: the registration and password-reset flows keep disjoint stores:
`/register` and `/verify-code` leave `reset_codes` unchanged,
`/forgot-password` and `/reset-password` leave `verification_codes`
unchanged, and consequently a `/forgot-password` call cannot change the
outcome of any `/verify-code` request, nor a `/register` call that of any
`/reset-password` request. -/
theorem C8_disjoint_flows (svc : EmailService) (st : AuthState)
    (email code pw email2 code2 : String) (r now now2 : Nat)
    (t : Except String Unit) :
    (register svc st email r now t).2.reset_codes = st.reset_codes ∧
    (verify_code st email code now).2.reset_codes = st.reset_codes ∧
    (forgot_password svc st email r now t).2.verification_codes = st.verification_codes ∧
    (reset_password st email code pw now).2.verification_codes = st.verification_codes ∧
    (verify_code (forgot_password svc st email r now t).2 email2 code2 now2).1 =
      (verify_code st email2 code2 now2).1 ∧
    (reset_password (register svc st email r now t).2 email2 code2 pw now2).1 =
      (reset_password st email2 code2 pw now2).1 := by
  refine ⟨register_reset_frame svc st email r now t,
    verify_code_reset_frame st email code now,
    forgot_password_verification_frame svc st email r now t,
    reset_password_verification_frame st email code pw now, ?_, ?_⟩
  · exact verify_code_result_congr _ _ email2 code2 now2
      (forgot_password_verification_frame svc st email r now t)
  · exact reset_password_result_congr _ _ email2 code2 pw now2
      (register_reset_frame svc st email r now t)

/-- Claim C9: the expiry comparison is strict in both flows: a verification
with the correct code performed exactly at the stored expiry instant
(`now = expires_at`) still succeeds, and indeed any time up to and including
the expiry succeeds; the same holds for `/reset-password`. -/
theorem C9_expiry_boundary (st : AuthState) (email pw : String)
    (stored stored2 : CodeEntry)
    (hemail : email ≠ "") (hcode : stored.code ≠ "") (hcode2 : stored2.code ≠ "")
    (hpw : pw ≠ "")
    (hlook : storeLookup st.verification_codes email = some stored)
    (hlook2 : storeLookup st.reset_codes email = some stored2) :
    verify_code st email stored.code stored.expires_at =
      (.success,
        { st with verification_codes := storeErase st.verification_codes email }) ∧
    (∀ now, now ≤ stored.expires_at →
      verify_code st email stored.code now =
        (.success,
          { st with verification_codes := storeErase st.verification_codes email })) ∧
    reset_password st email stored2.code pw stored2.expires_at =
      (.success, { st with reset_codes := storeErase st.reset_codes email }) := by
  refine ⟨verify_code_success st email stored.code stored.expires_at hemail hcode
      stored hlook le_rfl rfl, ?_,
    reset_password_success st email stored2.code pw stored2.expires_at hemail
      hcode2 hpw stored2 hlook2 le_rfl rfl⟩
  intro now hn
  exact verify_code_success st email stored.code now hemail hcode stored hlook hn rfl

/-- Witness for C9: verification exactly at the expiry instant (t = 900 for a
code issued at t = 0) succeeds. -/
theorem C9_expiry_boundary_witness :
    verify_code ⟨[("a@x.com", ⟨"123456", 900⟩)], [("a@x.com", ⟨"777777", 900⟩)]⟩
        "a@x.com" "123456" 900 =
      (.success,
        ⟨storeErase [("a@x.com", ⟨"123456", 900⟩)] "a@x.com",
          [("a@x.com", ⟨"777777", 900⟩)]⟩) :=
  (C9_expiry_boundary
    ⟨[("a@x.com", ⟨"123456", 900⟩)], [("a@x.com", ⟨"777777", 900⟩)]⟩
    "a@x.com" "newpass" ⟨"123456", 900⟩ ⟨"777777", 900⟩ (by decide) (by decide)
    (by decide) (by decide) (by decide) (by decide)).1

/-- Claim C10: in `/register` the store is written before the send is
attempted: with a failing transport (and log-only off) the request returns
`deliveryFailure` with HTTP status 500, yet the new code and expiry have
already replaced any prior entry and the code still verifies within its
window. -/
theorem C10_store_written_before_send (svc : EmailService) (st : AuthState)
    (email : String) (r now vnow : Nat) (err : String)
    (hemail : email ≠ "") (hlog : svc.log_only = false)
    (hvnow : vnow ≤ now + 900) :
    register svc st email r now (Except.error err) =
      (.deliveryFailure err,
        { st with verification_codes :=
            storeInsert st.verification_codes email ⟨generate_code r, now + 900⟩ }) ∧
    issueStatus (register svc st email r now (Except.error err)).1 = 500 ∧
    storeLookup (register svc st email r now (Except.error err)).2.verification_codes
        email = some ⟨generate_code r, now + 900⟩ ∧
    verify_code (register svc st email r now (Except.error err)).2 email
        (generate_code r) vnow =
      (.success,
        { (register svc st email r now (Except.error err)).2 with
          verification_codes :=
            storeErase
              (register svc st email r now (Except.error err)).2.verification_codes
              email }) := by
  have h := register_delivery_failure svc st email r now err hemail hlog
  have hlook : storeLookup
      (register svc st email r now (Except.error err)).2.verification_codes email =
      some ⟨generate_code r, now + 900⟩ := by
    rw [h]
    exact storeLookup_storeInsert_self st.verification_codes email _
  refine ⟨h, by rw [h]; rfl, hlook, ?_⟩
  exact verify_code_success _ email (generate_code r) vnow hemail
    (generate_code_ne_empty r) ⟨generate_code r, now + 900⟩ hlook hvnow rfl

/-- Witness for C10: a failing transport still leaves the freshly issued code
stored (delivery failure, state written). -/
theorem C10_store_written_before_send_witness :
    register defaultService ⟨[], []⟩ "a@x.com" 0 0 (Except.error "boom") =
      (.deliveryFailure "boom",
        ⟨storeInsert [] "a@x.com" ⟨generate_code 0, 900⟩, []⟩) :=
  (C10_store_written_before_send defaultService ⟨[], []⟩ "a@x.com" 0 0 900 "boom"
    (by decide) rfl (by decide)).1

end EmailSystem
